import Mathlib

/-!
Verification development for the authentication routes of `fast_api_app`
(file `fast_api_app/routes/auth.py`).

The five route handlers (`signup`, `login`, `confirmed_email`,
`request_email`, `refresh_token`) are translated directly from the Python
source.  Their collaborators (`fast_api_app.repository.users`,
`fast_api_app.services.auth`, `fast_api_app.services.email`) are part of the
repository but their source files are not available here; they are modelled
from the interface contracts of the specification (sections 4.1, 4.2, 6).

Modelling conventions:
- A signed token string is modelled by its signed payload `Token`
  (subject, scope claim, issued-at, expiry).  With a fixed process-wide
  signing key and deterministic serialization, equality of encoded token
  strings coincides with equality of payloads, so string comparison in the
  source becomes `Token` equality here.
- The database session is a `List User`; repository calls are pure
  functions on it.
- The outcome of a handler is `Outcome α`: `ok` (a 2xx response), `error s d`
  (a raised `HTTPException` with status `s` and detail `d`), or `fault`
  (an unhandled Python exception, e.g. an `AttributeError` from an
  attribute access on `None`, which the framework surfaces as a 500).
- `BackgroundTasks.add_task` is modelled by returning the list of queued
  email tasks next to the response; the tasks run after the response is
  computed, so the response never depends on their outcome.
- Wall-clock time is an explicit `now : Nat` parameter threaded to token
  issuance and decoding.
-/

/-- The scope claim discriminating the three token kinds. -/
inductive TokenKind : Type
  | access
  | refresh
  | email_confirmation
deriving DecidableEq, Repr

/-- The signed payload of a token: subject (user email), kind discriminator,
issued-at and expiry.  Stands for the encoded token string (see header). -/
structure Token : Type where
  sub : String
  scope : TokenKind
  iat : Nat
  exp : Nat
deriving DecidableEq, Repr

/-- A persisted user record, as read and written through the repository. -/
structure User : Type where
  email : String
  username : String
  password : String
  confirmed : Bool
  refresh_token : Option Token
deriving DecidableEq, Repr

/-- The request body of `signup` (`UserModel` in `fast_api_app.schemas`):
username, email and the plaintext password. -/
structure UserModel : Type where
  username : String
  email : String
  password : String
deriving DecidableEq, Repr

/-- Result of a route handler: a 2xx response, a raised `HTTPException`
with status code and detail, or an unhandled exception (server fault). -/
inductive Outcome (α : Type) : Type
  | ok (value : α)
  | error (statusCode : Nat) (detail : String)
  | fault
deriving DecidableEq, Repr

/-- The `TokenModel` response body of `login` and `refresh_token`. -/
structure TokenPair : Type where
  access_token : Token
  refresh_token : Token
  token_type : String
deriving DecidableEq, Repr

/-- The `UserResponses` body of `signup`: the created user echo plus a
detail message. -/
structure SignupEcho : Type where
  user : User
  detail : String
deriving DecidableEq, Repr

/-- A queued confirmation-email background task: recipient email and
display username (the base-URL argument carries no information we track). -/
structure EmailTask : Type where
  email : String
  username : String
deriving DecidableEq, Repr

/-- Modelled from the spec: the access-token TTL from `services/auth.py`
(process configuration, "short for access — e.g. minutes"). -/
def access_token_ttl : Nat := 15 * 60

/-- Modelled from the spec: the refresh-token TTL from `services/auth.py`
(process configuration, "long for refresh — e.g. days"). -/
def refresh_token_ttl : Nat := 7 * 24 * 60 * 60

/-- Modelled from the spec: the confirmation-token TTL from
`services/auth.py` ("confirmation tokens use a separate long TTL"). -/
def email_token_ttl : Nat := 7 * 24 * 60 * 60

namespace auth_service

/-- Modelled from the spec: `auth_service.get_password_hash` from
`services/auth.py` — a one-way transform of the plaintext; the stored hash
is never the plaintext itself. -/
def get_password_hash (plaintext : String) : String :=
  "$2b$12$" ++ plaintext

/-- Modelled from the spec: `auth_service.verify_password` from
`services/auth.py` — true iff the plaintext hashes to the stored hash;
mismatch is a boolean false, never an error. -/
def verify_password (plaintext hashed : String) : Bool :=
  get_password_hash plaintext == hashed

/-- Modelled from the spec: `auth_service.create_access_token` from
`services/auth.py` — signs a payload with subject, access scope,
issued-at and expiry. -/
def create_access_token (email : String) (now : Nat) : Token :=
  { sub := email, scope := .access, iat := now, exp := now + access_token_ttl }

/-- Modelled from the spec: `auth_service.create_refresh_token` from
`services/auth.py` — signs a payload with subject, refresh scope,
issued-at and expiry. -/
def create_refresh_token (email : String) (now : Nat) : Token :=
  { sub := email, scope := .refresh, iat := now, exp := now + refresh_token_ttl }

/-- Modelled from the spec: `auth_service.decode_refresh_token` from
`services/auth.py` — verifies signature, expiry and that the scope claim
is `refresh`; returns the subject email on success, fails otherwise
(any failure collapses to one generic invalid-credential condition). -/
def decode_refresh_token (token : Token) (now : Nat) : Option String :=
  if token.scope = .refresh ∧ now < token.exp then some token.sub else none

/-- Modelled from the spec: `auth_service.get_email_from_token` from
`services/auth.py` — verifies signature, expiry and that the scope claim
is `email_confirmation`; returns the subject email on success. -/
def get_email_from_token (token : Token) (now : Nat) : Option String :=
  if token.scope = .email_confirmation ∧ now < token.exp then some token.sub
  else none

end auth_service

namespace repository_users

/-- Modelled from the spec: `repository_users.get_user_by_email` from
`repository/users.py` — `find_by_email(email) -> User | absent`. -/
def get_user_by_email (email : String) (db : List User) : Option User :=
  db.find? (fun u => u.email == email)

/-- Modelled from the spec: `repository_users.create_user` from
`repository/users.py` — creates the user record from the request body
(whose password field the route has already replaced by its hash);
`confirmed` starts false and no refresh token is stored. -/
def create_user (body : UserModel) (db : List User) : User × List User :=
  let u : User :=
    { email := body.email, username := body.username,
      password := body.password, confirmed := false, refresh_token := none }
  (u, db ++ [u])

/-- Modelled from the spec: `repository_users.update_token` from
`repository/users.py` — `set_refresh_token(user, token_or_null)`, writing
the (possibly null) refresh token on the record of that user. -/
def update_token (user : User) (token : Option Token) (db : List User) :
    List User :=
  db.map (fun u => if u.email == user.email
                   then { u with refresh_token := token } else u)

/-- Modelled from the spec: `repository_users.confirmed_email` from
`repository/users.py` — `mark_confirmed(email)`, setting `confirmed` to
true on the record with that email. -/
def confirmed_email (email : String) (db : List User) : List User :=
  db.map (fun u => if u.email == email then { u with confirmed := true } else u)

end repository_users

/-- The `POST /auth/signup` handler (`auth.py` lines 16-36): reject a
duplicate email with 409, hash the password, create the user, queue the
confirmation email as a background task, return the created-user echo. -/
def signup (body : UserModel) (db : List User) :
    Outcome SignupEcho × List User × List EmailTask :=
  match repository_users.get_user_by_email body.email db with
  | some _ => (.error 409 "Account already exists", db, [])
  | none =>
    let hashed : UserModel :=
      { body with password := auth_service.get_password_hash body.password }
    let created := repository_users.create_user hashed db
    (.ok { user := created.1, detail := "User successfully created" },
     created.2,
     [{ email := created.1.email, username := created.1.username }])

/-- The `POST /auth/login` handler (`auth.py` lines 40-62): look up by
email, check `confirmed`, verify the password, then issue a fresh
access/refresh pair and persist the new refresh token on the record. -/
def login (username password : String) (now : Nat) (db : List User) :
    Outcome TokenPair × List User :=
  match repository_users.get_user_by_email username db with
  | none => (.error 401 "Invalid email", db)
  | some user =>
    if user.confirmed = false then (.error 401 "Email not confirmed", db)
    else if auth_service.verify_password password user.password = false then
      (.error 401 "Invalid password", db)
    else
      let access := auth_service.create_access_token user.email now
      let refresh := auth_service.create_refresh_token user.email now
      (.ok { access_token := access, refresh_token := refresh,
             token_type := "bearer" },
       repository_users.update_token user (some refresh) db)

/-- The `GET /auth/confirmed_email/{token}` handler (`auth.py` lines
66-87): decode the confirmation token, 400 if the subject has no user,
idempotent success if already confirmed, otherwise mark confirmed.
A decode failure is the verification-error condition of the token service
(modelled from the spec, since `services/auth.py` is not available). -/
def confirmed_email (token : Token) (now : Nat) (db : List User) :
    Outcome String × List User :=
  match auth_service.get_email_from_token token now with
  | none => (.error 422 "Invalid token for email verification", db)
  | some email =>
    match repository_users.get_user_by_email email db with
    | none => (.error 400 "Verification error", db)
    | some user =>
      if user.confirmed then (.ok "Your email is already confirmed", db)
      else (.ok "Email confirmed", repository_users.confirmed_email email db)

/-- The `POST /auth/request_email` handler (`auth.py` lines 91-113).
The Python body reads `user.confirmed` straight off the lookup result, so
when the lookup returns `None` the attribute access raises an
`AttributeError` (the `if user:` guard on line 111 comes too late): that
is the `fault` branch.  Otherwise: idempotent message if confirmed, else
queue the confirmation email and return the generic message. -/
def request_email (email : String) (db : List User) :
    Outcome String × List User × List EmailTask :=
  match repository_users.get_user_by_email email db with
  | none => (.fault, db, [])
  | some user =>
    if user.confirmed then (.ok "Your email is already confirmed", db, [])
    else (.ok "Check your email for confirmation.", db,
          [{ email := user.email, username := user.username }])

/-- The `GET /auth/refresh_token` handler (`auth.py` lines 117-139).
Decode the bearer token as refresh kind; look up the subject; the Python
body then reads `user.refresh_token` off the lookup result without a
`None` guard, so an absent user raises an `AttributeError` (`fault`).
A stored-token mismatch clears the stored token and raises 401; a match
issues and persists a fresh pair. -/
def refresh_token (token : Token) (now : Nat) (db : List User) :
    Outcome TokenPair × List User :=
  match auth_service.decode_refresh_token token now with
  | none => (.error 401 "Could not validate credentials", db)
  | some email =>
    match repository_users.get_user_by_email email db with
    | none => (.fault, db)
    | some user =>
      if user.refresh_token ≠ some token then
        (.error 401 "Invalid refresh token",
         repository_users.update_token user none db)
      else
        let access := auth_service.create_access_token email now
        let refresh := auth_service.create_refresh_token email now
        (.ok { access_token := access, refresh_token := refresh,
               token_type := "bearer" },
         repository_users.update_token user (some refresh) db)

/-- One surfaced operation of the auth router, for stating properties over
arbitrary interleavings of the five handlers. -/
inductive Op : Type
  | signup (body : UserModel)
  | login (username password : String)
  | confirm (token : Token)
  | request (email : String)
  | refresh (token : Token)
deriving DecidableEq, Repr

/-- The database state after running one surfaced operation. -/
def apply_op (op : Op) (now : Nat) (db : List User) : List User :=
  match op with
  | .signup body => (signup body db).2.1
  | .login u p => (login u p now db).2
  | .confirm tok => (confirmed_email tok now db).2
  | .request e => (request_email e db).2.1
  | .refresh tok => (refresh_token tok now db).2

/-- The `confirmed` flag of the record found for `e`, false if absent. -/
def confirmedOf (db : List User) (e : String) : Bool :=
  match repository_users.get_user_by_email e db with
  | some u => u.confirmed
  | none => false

/-- The refresh token stored on the record found for `e`, none if absent. -/
def stored_refresh (db : List User) (e : String) : Option Token :=
  match repository_users.get_user_by_email e db with
  | some u => u.refresh_token
  | none => none

/-- Running the queued background email tasks with a given delivery
outcome, after the response of the handler is already fixed. -/
def run_background (tasks : List EmailTask) (deliver : EmailTask → Bool) :
    List Bool :=
  tasks.map deliver

/-- The whole signup request: the handler computes the response and the new
database state, then the queued background tasks run with whatever delivery
outcome the notifier produces.  The response part is fixed before the tasks
run, so it cannot depend on `deliver`. -/
def handle_signup (body : UserModel) (db : List User)
    (deliver : EmailTask → Bool) :
    (Outcome SignupEcho × List User) × List Bool :=
  let r := signup body db
  ((r.1, r.2.1), run_background r.2.2 deliver)

/-- Fixture: a confirmed user whose stored hash is the hash of "pw". -/
def aliceConfirmed : User :=
  { email := "a@x.com", username := "alice",
    password := auth_service.get_password_hash "pw",
    confirmed := true, refresh_token := none }

/-- Fixture: an unconfirmed user whose stored hash is the hash of "pw". -/
def bobUnconfirmed : User :=
  { email := "b@x.com", username := "bob",
    password := auth_service.get_password_hash "pw",
    confirmed := false, refresh_token := none }

/-- Fixture: a refresh token for `aliceConfirmed`, issued at time 0. -/
def tok0 : Token := auth_service.create_refresh_token "a@x.com" 0

/-- Fixture: `aliceConfirmed` with `tok0` stored as her refresh token. -/
def aliceWithTok : User := { aliceConfirmed with refresh_token := some tok0 }

/-- Fixture: an email-confirmation token for the address of `aliceConfirmed`,
issued at time 0. -/
def ctok : Token :=
  { sub := "a@x.com", scope := .email_confirmation, iat := 0,
    exp := email_token_ttl }

/-- Fixture: an email-confirmation token for the address of `bobUnconfirmed`,
issued at time 0. -/
def ctokB : Token :=
  { sub := "b@x.com", scope := .email_confirmation, iat := 0,
    exp := email_token_ttl }

/-! ### Helper lemmas about the repository model -/

/-- A user found by email has that email. -/
theorem get_user_by_email_email_eq {e : String} {db : List User} {u : User}
    (h : repository_users.get_user_by_email e db = some u) : u.email = e := by
  simp only [repository_users.get_user_by_email] at h
  have := List.find?_some h
  simpa [beq_iff_eq] using this

/-- Looking up after `update_token` is looking up first and then applying
the record rewrite, since the rewrite preserves emails. -/
theorem get_user_by_email_update_token (e : String) (w : User)
    (tok : Option Token) (db : List User) :
    repository_users.get_user_by_email e (repository_users.update_token w tok db)
      = (repository_users.get_user_by_email e db).map
          (fun v => if v.email == w.email
                    then { v with refresh_token := tok } else v) := by
  simp only [repository_users.get_user_by_email, repository_users.update_token,
    List.find?_map]
  have hf : ((fun u : User => u.email == e) ∘
      (fun u : User => if u.email == w.email
                       then { u with refresh_token := tok } else u))
      = fun u : User => u.email == e := by
    funext u
    by_cases h : u.email = w.email <;> simp [h]
  rw [hf]

/-- Looking up after `repository_users.confirmed_email` is looking up first
and then applying the record rewrite, since the rewrite preserves emails. -/
theorem get_user_by_email_confirmed_email (e em : String) (db : List User) :
    repository_users.get_user_by_email e (repository_users.confirmed_email em db)
      = (repository_users.get_user_by_email e db).map
          (fun v => if v.email == em then { v with confirmed := true } else v) := by
  simp only [repository_users.get_user_by_email, repository_users.confirmed_email,
    List.find?_map]
  have hf : ((fun u : User => u.email == e) ∘
      (fun u : User => if u.email == em then { u with confirmed := true } else u))
      = fun u : User => u.email == e := by
    funext u
    by_cases h : u.email = em <;> simp [h]
  rw [hf]

/-- `update_token` never changes the `confirmed` flag of any record. -/
theorem confirmedOf_update_token (w : User) (tok : Option Token)
    (db : List User) (e : String) :
    confirmedOf (repository_users.update_token w tok db) e = confirmedOf db e := by
  simp only [confirmedOf, get_user_by_email_update_token]
  cases repository_users.get_user_by_email e db with
  | none => rfl
  | some v => by_cases h : v.email = w.email <;> simp [h]

/-- `repository_users.confirmed_email` never lowers a `confirmed` flag. -/
theorem confirmedOf_confirmed_email_mono (em : String) (db : List User)
    (e : String) (h : confirmedOf db e = true) :
    confirmedOf (repository_users.confirmed_email em db) e = true := by
  simp only [confirmedOf, get_user_by_email_confirmed_email] at *
  cases hv : repository_users.get_user_by_email e db with
  | none => rw [hv] at h; exact absurd h (by simp)
  | some v =>
    rw [hv] at h
    have hvc : v.confirmed = true := h
    by_cases hm : v.email = em <;> simp [hm, hvc]

/-- Appending a record with `confirmed = false` changes for no email the
`confirmed` status. -/
theorem confirmedOf_append_new (db : List User) (u : User) (e : String)
    (hc : u.confirmed = false) :
    confirmedOf (db ++ [u]) e = confirmedOf db e := by
  simp only [confirmedOf, repository_users.get_user_by_email, List.find?_append]
  cases hh : List.find? (fun v => v.email == e) db with
  | some v => rfl
  | none =>
    simp only [Option.none_or]
    by_cases hu : u.email = e
    · rw [List.find?_cons_of_pos _ (by simp [hu])]
      simp [hc]
    · rw [List.find?_cons_of_neg _ (by simp [hu])]
      rfl

/-- Writing a refresh token for the record that `e` resolves to makes the
stored refresh token of `e` that value. -/
theorem stored_refresh_update_token (w : User) (tok : Option Token)
    (db : List User) (e : String) (hw : w.email = e) (v : User)
    (hv : repository_users.get_user_by_email e db = some v) :
    stored_refresh (repository_users.update_token w tok db) e = tok := by
  have hve : v.email = e := get_user_by_email_email_eq hv
  simp only [stored_refresh, get_user_by_email_update_token, hv, Option.map_some]
  simp [hve, hw]

/-- The password hash is never the plaintext itself. -/
theorem get_password_hash_ne (p : String) :
    auth_service.get_password_hash p ≠ p := by
  intro h
  have hlen := congrArg String.length h
  rw [auth_service.get_password_hash, String.length_append] at hlen
  have h7 : "$2b$12$".length = 7 := rfl
  rw [h7] at hlen
  omega

/-! ### Claim theorems -/

/-- Claim C1 (code-bug evidence): for an email not registered in the
repository, `request_email` does not complete with the generic
"Check your email for confirmation." message — it faults, because the
handler dereferences the `None` lookup result (`user.confirmed`,
`auth.py` line 109) before the too-late `if user:` guard on line 111. -/
theorem request_email_unknown_email_faults (email : String) (db : List User)
    (h : repository_users.get_user_by_email email db = none) :
    request_email email db = (.fault, db, []) := by
  simp [request_email, h]

/-- Concrete run of the C1 fault: an unregistered email on an empty
database. -/
theorem request_email_unknown_email_faults_witness :
    repository_users.get_user_by_email "ghost@x.com" [] = none
  ∧ request_email "ghost@x.com" [] = (.fault, [], []) :=
  ⟨rfl, request_email_unknown_email_faults "ghost@x.com" [] rfl⟩

/-- Claim C2: whenever the presented token decodes successfully as a
refresh token but differs from the refresh token stored on the (existing)
user record, the handler overwrites the stored token with none and raises
401 "Invalid refresh token"; the resulting database state shows the
cleared token. -/
theorem refresh_stale_token_clears_and_fails (token : Token) (now : Nat)
    (db : List User) (user : User)
    (hdec : auth_service.decode_refresh_token token now = some token.sub)
    (hfind : repository_users.get_user_by_email token.sub db = some user)
    (hne : user.refresh_token ≠ some token) :
    refresh_token token now db
      = (.error 401 "Invalid refresh token",
         repository_users.update_token user none db)
  ∧ stored_refresh (refresh_token token now db).2 token.sub = none := by
  have hres : refresh_token token now db
      = (.error 401 "Invalid refresh token",
         repository_users.update_token user none db) := by
    simp [refresh_token, hdec, hfind, hne]
  refine ⟨hres, ?_⟩
  rw [hres]
  exact stored_refresh_update_token user none db token.sub
    (get_user_by_email_email_eq hfind) user hfind

/-- Concrete run of C2: a valid refresh token presented against a record
whose stored refresh token is absent (hence differs). -/
theorem refresh_stale_token_clears_and_fails_witness :
    (auth_service.decode_refresh_token tok0 1 = some tok0.sub
   ∧ repository_users.get_user_by_email tok0.sub [aliceConfirmed]
       = some aliceConfirmed
   ∧ aliceConfirmed.refresh_token ≠ some tok0)
  ∧ (refresh_token tok0 1 [aliceConfirmed]
      = (.error 401 "Invalid refresh token",
         repository_users.update_token aliceConfirmed none [aliceConfirmed])
   ∧ stored_refresh (refresh_token tok0 1 [aliceConfirmed]).2 tok0.sub
       = none) :=
  ⟨⟨by decide, by decide, by decide⟩,
   refresh_stale_token_clears_and_fails tok0 1 [aliceConfirmed]
     aliceConfirmed (by decide) (by decide) (by decide)⟩

/-- Claim C6: a registered but unconfirmed user makes `login` fail with
the distinct 401 "Email not confirmed", for every supplied password —
the `confirmed` check is decided before password verification. -/
theorem login_unconfirmed_always_fails (email password : String) (now : Nat)
    (db : List User) (user : User)
    (hfind : repository_users.get_user_by_email email db = some user)
    (hunc : user.confirmed = false) :
    login email password now db = (.error 401 "Email not confirmed", db) := by
  simp [login, hfind, hunc]

/-- Concrete run of C6, with the password that is in fact correct: the
unconfirmed condition still wins. -/
theorem login_unconfirmed_always_fails_witness :
    (repository_users.get_user_by_email "b@x.com" [bobUnconfirmed]
       = some bobUnconfirmed
   ∧ bobUnconfirmed.confirmed = false
   ∧ auth_service.verify_password "pw" bobUnconfirmed.password = true)
  ∧ login "b@x.com" "pw" 0 [bobUnconfirmed]
      = (.error 401 "Email not confirmed", [bobUnconfirmed]) :=
  ⟨⟨by decide, by decide, by decide⟩,
   login_unconfirmed_always_fails "b@x.com" "pw" 0 [bobUnconfirmed]
     bobUnconfirmed (by decide) (by decide)⟩

/-- Claim C10: a signature/expiry-valid refresh token whose subject has no
user record drives `refresh_token` into the unguarded branch: the `None`
lookup result is dereferenced (`user.refresh_token`, `auth.py` line 132),
so the call faults — yielding neither a token pair nor a clean 401. -/
theorem refresh_absent_subject_faults (token : Token) (now : Nat)
    (db : List User)
    (hdec : auth_service.decode_refresh_token token now = some token.sub)
    (habs : repository_users.get_user_by_email token.sub db = none) :
    refresh_token token now db = (.fault, db)
  ∧ (∀ pair : TokenPair, (refresh_token token now db).1 ≠ .ok pair)
  ∧ (∀ (s : Nat) (d : String), (refresh_token token now db).1 ≠ .error s d) := by
  have hres : refresh_token token now db = (.fault, db) := by
    simp [refresh_token, hdec, habs]
  exact ⟨hres, fun pair => by rw [hres]; simp,
         fun s d => by rw [hres]; simp⟩

/-- Concrete run of C10: a valid refresh token for an address with no user
record, on an empty database. -/
theorem refresh_absent_subject_faults_witness :
    (auth_service.decode_refresh_token tok0 1 = some tok0.sub
   ∧ repository_users.get_user_by_email tok0.sub [] = none)
  ∧ refresh_token tok0 1 [] = (.fault, []) :=
  ⟨⟨by decide, rfl⟩,
   (refresh_absent_subject_faults tok0 1 [] (by decide) rfl).1⟩

/-- Claim C3 (counterexample): the login failure for an unregistered email
and the failure for a registered, confirmed user with a wrong password
carry different detail messages ("Invalid email" vs "Invalid password"),
so the two failure signals are distinguishable, and the former reveals
that the account does not exist. -/
theorem login_failure_signals_distinguishable :
    (login "ghost@x.com" "pw" 0 [aliceConfirmed]).1
      = Outcome.error 401 "Invalid email"
  ∧ (login "a@x.com" "wrong" 0 [aliceConfirmed]).1
      = Outcome.error 401 "Invalid password"
  ∧ (Outcome.error 401 "Invalid email" : Outcome TokenPair)
      ≠ Outcome.error 401 "Invalid password" :=
  ⟨by decide, by decide, by decide⟩

/-- Claim C3 (amended): both failures are surfaced as the same unauthorized
status code (401) and neither faults, but the detail messages are distinct:
"Invalid email" for an unregistered address, "Invalid password" for a
registered confirmed user whose password check fails. -/
theorem login_failures_both_unauthorized (email password : String)
    (now : Nat) (db : List User) :
    (repository_users.get_user_by_email email db = none →
       login email password now db = (.error 401 "Invalid email", db))
  ∧ (∀ user, repository_users.get_user_by_email email db = some user →
       user.confirmed = true →
       auth_service.verify_password password user.password = false →
       login email password now db = (.error 401 "Invalid password", db)) := by
  constructor
  · intro h
    simp [login, h]
  · intro user hfind hconf hpw
    simp [login, hfind, hconf, hpw]

/-- Concrete runs of the two amended C3 branches. -/
theorem login_failures_both_unauthorized_witness :
    login "ghost@x.com" "pw" 0 [aliceConfirmed]
      = (.error 401 "Invalid email", [aliceConfirmed])
  ∧ login "a@x.com" "wrong" 0 [aliceConfirmed]
      = (.error 401 "Invalid password", [aliceConfirmed]) :=
  ⟨(login_failures_both_unauthorized "ghost@x.com" "pw" 0
      [aliceConfirmed]).1 (by decide),
   (login_failures_both_unauthorized "a@x.com" "wrong" 0
      [aliceConfirmed]).2 aliceConfirmed (by decide) (by decide) (by decide)⟩

/-- Claim C7: the confirm handler is idempotent.  Given a structurally
valid, unexpired confirmation token whose subject resolves to a user
record: if the user is already confirmed, the handler returns the
"already confirmed" success without an error and without changing state;
if not, it applies the confirmed=true transition and returns success, and
a second run with the same (still unexpired) token succeeds again with
the "already confirmed" message. -/
theorem confirm_idempotent (token : Token) (n1 n2 : Nat) (db : List User)
    (user : User)
    (hscope : token.scope = .email_confirmation)
    (h1 : n1 < token.exp) (h2 : n2 < token.exp)
    (hfind : repository_users.get_user_by_email token.sub db = some user) :
    (user.confirmed = true →
       confirmed_email token n1 db
         = (.ok "Your email is already confirmed", db))
  ∧ (user.confirmed = false →
       (confirmed_email token n1 db).1 = .ok "Email confirmed"
     ∧ confirmedOf (confirmed_email token n1 db).2 token.sub = true
     ∧ (confirmed_email token n2 (confirmed_email token n1 db).2).1
         = .ok "Your email is already confirmed") := by
  have hdec1 : auth_service.get_email_from_token token n1 = some token.sub := by
    simp [auth_service.get_email_from_token, hscope, h1]
  have hdec2 : auth_service.get_email_from_token token n2 = some token.sub := by
    simp [auth_service.get_email_from_token, hscope, h2]
  have hue : user.email = token.sub := get_user_by_email_email_eq hfind
  constructor
  · intro hc
    simp [confirmed_email, hdec1, hfind, hc]
  · intro hc
    have hres : confirmed_email token n1 db
        = (.ok "Email confirmed",
           repository_users.confirmed_email token.sub db) := by
      simp [confirmed_email, hdec1, hfind, hc]
    have hfind2 : repository_users.get_user_by_email token.sub
        (repository_users.confirmed_email token.sub db)
        = some { user with confirmed := true } := by
      rw [get_user_by_email_confirmed_email, hfind]
      simp [hue]
    refine ⟨by rw [hres], ?_, ?_⟩
    · rw [hres]
      simp [confirmedOf, hfind2]
    · rw [hres]
      simp [confirmed_email, hdec2, hfind2]

/-- Concrete run of C7: confirming an unconfirmed user succeeds, the flag
flips, and re-presenting the same valid token succeeds idempotently. -/
theorem confirm_idempotent_witness :
    (ctokB.scope = .email_confirmation ∧ 1 < ctokB.exp ∧ 2 < ctokB.exp
   ∧ repository_users.get_user_by_email ctokB.sub [bobUnconfirmed]
       = some bobUnconfirmed
   ∧ bobUnconfirmed.confirmed = false)
  ∧ ((confirmed_email ctokB 1 [bobUnconfirmed]).1 = .ok "Email confirmed"
   ∧ confirmedOf (confirmed_email ctokB 1 [bobUnconfirmed]).2 ctokB.sub = true
   ∧ (confirmed_email ctokB 2 (confirmed_email ctokB 1 [bobUnconfirmed]).2).1
       = .ok "Your email is already confirmed") :=
  ⟨⟨rfl, by decide, by decide, by decide, rfl⟩,
   (confirm_idempotent ctokB 1 2 [bobUnconfirmed] bobUnconfirmed rfl
      (by decide) (by decide) (by decide)).2 rfl⟩

/-- Claim C8: `signup` answers 409 exactly when the email is already
registered; otherwise it creates the user with the password stored only
in hashed form (never the plaintext), echoes the created user with the
success message, queues the confirmation-email send, and the background
delivery outcome of the task never changes the response. -/
theorem signup_conflict_iff_registered (body : UserModel) (db : List User) :
    ((∃ u, repository_users.get_user_by_email body.email db = some u) →
       signup body db = (.error 409 "Account already exists", db, []))
  ∧ (repository_users.get_user_by_email body.email db = none →
       ∃ newUser : User,
         newUser.email = body.email
       ∧ newUser.username = body.username
       ∧ newUser.password = auth_service.get_password_hash body.password
       ∧ newUser.password ≠ body.password
       ∧ newUser.confirmed = false
       ∧ signup body db
           = (.ok { user := newUser, detail := "User successfully created" },
              db ++ [newUser],
              [{ email := body.email, username := body.username }]))
  ∧ (∀ d1 d2 : EmailTask → Bool,
       (handle_signup body db d1).1 = (handle_signup body db d2).1) := by
  refine ⟨?_, ?_, ?_⟩
  · rintro ⟨u, hu⟩
    simp [signup, hu]
  · intro h
    refine ⟨{ email := body.email, username := body.username,
              password := auth_service.get_password_hash body.password,
              confirmed := false, refresh_token := none },
            rfl, rfl, rfl, get_password_hash_ne body.password, rfl, ?_⟩
    simp [signup, h, repository_users.create_user]
  · intro d1 d2
    rfl

/-- Concrete runs of C8: a duplicate email is rejected with 409 and a
fresh email creates the hashed-password record. -/
theorem signup_conflict_iff_registered_witness :
    signup { username := "al", email := "a@x.com", password := "pw" }
        [aliceConfirmed]
      = (.error 409 "Account already exists", [aliceConfirmed], [])
  ∧ (∃ newUser : User,
       newUser.email = "c@x.com"
     ∧ newUser.username = "carol"
     ∧ newUser.password = auth_service.get_password_hash "pw2"
     ∧ newUser.password ≠ "pw2"
     ∧ newUser.confirmed = false
     ∧ signup { username := "carol", email := "c@x.com", password := "pw2" }
           [aliceConfirmed]
         = (.ok { user := newUser, detail := "User successfully created" },
            [aliceConfirmed] ++ [newUser],
            [{ email := "c@x.com", username := "carol" }])) :=
  ⟨(signup_conflict_iff_registered
      { username := "al", email := "a@x.com", password := "pw" }
      [aliceConfirmed]).1 ⟨aliceConfirmed, by decide⟩,
   (signup_conflict_iff_registered
      { username := "carol", email := "c@x.com", password := "pw2" }
      [aliceConfirmed]).2.1 (by decide)⟩

/-- Claim C5: presenting the currently stored, unexpired refresh token,
the first refresh call succeeds and persists a new refresh token distinct
from the presented one; an immediately following call with the original
token (still unexpired) fails 401 — a once-used refresh token is never
accepted again. -/
theorem refresh_rotates_and_rejects_replay (token : Token) (t2 t3 : Nat)
    (db : List User) (user : User)
    (hscope : token.scope = .refresh)
    (hv2 : t2 < token.exp) (hv3 : t3 < token.exp)
    (hiat : token.iat ≠ t2)
    (hfind : repository_users.get_user_by_email token.sub db = some user)
    (hstored : user.refresh_token = some token) :
    ∃ pair : TokenPair,
      refresh_token token t2 db
        = (.ok pair,
           repository_users.update_token user (some pair.refresh_token) db)
    ∧ pair.refresh_token ≠ token
    ∧ stored_refresh (refresh_token token t2 db).2 token.sub
        = some pair.refresh_token
    ∧ (refresh_token token t3 (refresh_token token t2 db).2).1
        = .error 401 "Invalid refresh token" := by
  have hue : user.email = token.sub := get_user_by_email_email_eq hfind
  have hdec2 : auth_service.decode_refresh_token token t2 = some token.sub := by
    simp [auth_service.decode_refresh_token, hscope, hv2]
  have hdec3 : auth_service.decode_refresh_token token t3 = some token.sub := by
    simp [auth_service.decode_refresh_token, hscope, hv3]
  set rt2 := auth_service.create_refresh_token token.sub t2 with hrt2
  have hne : rt2 ≠ token := by
    intro h
    exact hiat (congrArg Token.iat h).symm
  have hres : refresh_token token t2 db
      = (.ok { access_token := auth_service.create_access_token token.sub t2,
               refresh_token := rt2, token_type := "bearer" },
         repository_users.update_token user (some rt2) db) := by
    simp [refresh_token, hdec2, hfind, hstored]
  have hfind2 : repository_users.get_user_by_email token.sub
      (repository_users.update_token user (some rt2) db)
      = some { user with refresh_token := some rt2 } := by
    rw [get_user_by_email_update_token, hfind]
    simp
  refine ⟨{ access_token := auth_service.create_access_token token.sub t2,
            refresh_token := rt2, token_type := "bearer" },
          hres, hne, ?_, ?_⟩
  · rw [hres]
    exact stored_refresh_update_token user (some rt2) db token.sub hue
      user hfind
  · rw [hres]
    simp [refresh_token, hdec3, hfind2, hne]

/-- Concrete run of C5: the stored token is accepted once at time 1 and
rejected when replayed at time 2. -/
theorem refresh_rotates_and_rejects_replay_witness :
    (tok0.scope = .refresh ∧ 1 < tok0.exp ∧ 2 < tok0.exp ∧ tok0.iat ≠ 1
   ∧ repository_users.get_user_by_email tok0.sub [aliceWithTok]
       = some aliceWithTok
   ∧ aliceWithTok.refresh_token = some tok0)
  ∧ (∃ pair : TokenPair,
       refresh_token tok0 1 [aliceWithTok]
         = (.ok pair,
            repository_users.update_token aliceWithTok
              (some pair.refresh_token) [aliceWithTok])
     ∧ pair.refresh_token ≠ tok0
     ∧ stored_refresh (refresh_token tok0 1 [aliceWithTok]).2 tok0.sub
         = some pair.refresh_token
     ∧ (refresh_token tok0 2 (refresh_token tok0 1 [aliceWithTok]).2).1
         = .error 401 "Invalid refresh token") :=
  ⟨⟨rfl, by decide, by decide, by decide, by decide, by decide⟩,
   refresh_rotates_and_rejects_replay tok0 1 2 [aliceWithTok] aliceWithTok
     rfl (by decide) (by decide) (by decide) (by decide) (by decide)⟩

/-- Claim C4: each successful login persists its newly issued refresh
token, overwriting any prior stored value; after two successive logins
(at distinct issuance times), a refresh call presenting the refresh token
of the first login (still unexpired) fails 401 and clears the stored refresh
token as a side effect. -/
theorem second_login_invalidates_first_refresh
    (email password : String) (t1 t2 t3 : Nat) (db : List User) (user : User)
    (hfind : repository_users.get_user_by_email email db = some user)
    (hconf : user.confirmed = true)
    (hpw : auth_service.verify_password password user.password = true)
    (hne : t1 ≠ t2)
    (hexp : t3 < t1 + refresh_token_ttl) :
    ∃ (p1 p2 : TokenPair) (db1 db2 : List User),
      login email password t1 db = (.ok p1, db1)
    ∧ stored_refresh db1 email = some p1.refresh_token
    ∧ login email password t2 db1 = (.ok p2, db2)
    ∧ stored_refresh db2 email = some p2.refresh_token
    ∧ p2.refresh_token ≠ p1.refresh_token
    ∧ (refresh_token p1.refresh_token t3 db2).1
        = .error 401 "Invalid refresh token"
    ∧ stored_refresh (refresh_token p1.refresh_token t3 db2).2 email
        = none := by
  have hue : user.email = email := get_user_by_email_email_eq hfind
  subst hue
  set rt1 := auth_service.create_refresh_token user.email t1 with hrt1
  set rt2 := auth_service.create_refresh_token user.email t2 with hrt2
  set p1 : TokenPair :=
    { access_token := auth_service.create_access_token user.email t1,
      refresh_token := rt1, token_type := "bearer" } with hp1
  set p2 : TokenPair :=
    { access_token := auth_service.create_access_token user.email t2,
      refresh_token := rt2, token_type := "bearer" } with hp2
  set db1 := repository_users.update_token user (some rt1) db with hdb1
  have h1 : login user.email password t1 db = (.ok p1, db1) := by
    simp [login, hfind, hconf, hpw, hp1, hdb1, hrt1]
  have hfind1 : repository_users.get_user_by_email user.email db1
      = some { user with refresh_token := some rt1 } := by
    rw [hdb1, get_user_by_email_update_token, hfind]
    simp
  set user1 : User := { user with refresh_token := some rt1 } with huser1
  set db2 := repository_users.update_token user1 (some rt2) db1 with hdb2
  have h2 : login user.email password t2 db1 = (.ok p2, db2) := by
    simp [login, hfind1, huser1, hconf, hpw, hp2, hdb2, hrt2]
  have hfind2 : repository_users.get_user_by_email user.email db2
      = some { user with refresh_token := some rt2 } := by
    rw [hdb2, get_user_by_email_update_token, hfind1]
    simp [huser1]
  have hne12 : rt2 ≠ rt1 := by
    intro h
    exact hne ((congrArg Token.iat h).symm)
  have hdec : auth_service.decode_refresh_token rt1 t3 = some rt1.sub := by
    simp [auth_service.decode_refresh_token, hrt1,
      auth_service.create_refresh_token, hexp]
  have hsub : rt1.sub = user.email := by rw [hrt1]; rfl
  have hres : refresh_token rt1 t3 db2
      = (.error 401 "Invalid refresh token",
         repository_users.update_token { user with refresh_token := some rt2 }
           none db2) := by
    rw [refresh_token, hdec, hsub]
    simp [hfind2, hne12]
  refine ⟨p1, p2, db1, db2, h1, ?_, h2, ?_, ?_, ?_, ?_⟩
  · rw [hdb1]
    exact stored_refresh_update_token user (some rt1) db user.email rfl
      user hfind
  · rw [hdb2]
    exact stored_refresh_update_token user1 (some rt2) db1 user.email rfl
      user1 hfind1
  · simpa [hp1, hp2] using hne12
  · rw [hp1]
    show (refresh_token rt1 t3 db2).1 = .error 401 "Invalid refresh token"
    rw [hres]
  · rw [hp1]
    show stored_refresh (refresh_token rt1 t3 db2).2 user.email = none
    rw [hres]
    exact stored_refresh_update_token { user with refresh_token := some rt2 }
      none db2 user.email rfl { user with refresh_token := some rt2 } hfind2

/-- Concrete run of C4: logins at times 0 and 1, then a refresh with the
first refresh token at time 2. -/
theorem second_login_invalidates_first_refresh_witness :
    (repository_users.get_user_by_email "a@x.com" [aliceConfirmed]
       = some aliceConfirmed
   ∧ aliceConfirmed.confirmed = true
   ∧ auth_service.verify_password "pw" aliceConfirmed.password = true
   ∧ (0 : Nat) ≠ 1 ∧ 2 < 0 + refresh_token_ttl)
  ∧ (∃ (p1 p2 : TokenPair) (db1 db2 : List User),
       login "a@x.com" "pw" 0 [aliceConfirmed] = (.ok p1, db1)
     ∧ stored_refresh db1 "a@x.com" = some p1.refresh_token
     ∧ login "a@x.com" "pw" 1 db1 = (.ok p2, db2)
     ∧ stored_refresh db2 "a@x.com" = some p2.refresh_token
     ∧ p2.refresh_token ≠ p1.refresh_token
     ∧ (refresh_token p1.refresh_token 2 db2).1
         = .error 401 "Invalid refresh token"
     ∧ stored_refresh (refresh_token p1.refresh_token 2 db2).2 "a@x.com"
         = none) :=
  ⟨⟨by decide, by decide, by decide, by decide, by decide⟩,
   second_login_invalidates_first_refresh "a@x.com" "pw" 0 1 2
     [aliceConfirmed] aliceConfirmed (by decide) (by decide) (by decide)
     (by decide) (by decide)⟩

/-- Every surfaced operation leaves the database either untouched, updated
by a refresh-token write, updated by a mark-confirmed write (only for the
confirm operation), or extended with a fresh record whose `confirmed`
flag is false. -/
theorem apply_op_state_shape (op : Op) (now : Nat) (db : List User) :
    apply_op op now db = db
  ∨ (∃ w tok, apply_op op now db = repository_users.update_token w tok db)
  ∨ (∃ em tok, op = Op.confirm tok
       ∧ apply_op op now db = repository_users.confirmed_email em db)
  ∨ (∃ u : User, u.confirmed = false ∧ apply_op op now db = db ++ [u]) := by
  cases op with
  | signup body =>
    simp only [apply_op, signup]
    split
    · exact Or.inl rfl
    · exact Or.inr (Or.inr (Or.inr
        ⟨{ email := body.email, username := body.username,
           password := auth_service.get_password_hash body.password,
           confirmed := false, refresh_token := none }, rfl, rfl⟩))
  | login u p =>
    simp only [apply_op, login]
    split
    · exact Or.inl rfl
    · rename_i user heq
      split
      · exact Or.inl rfl
      · split
        · exact Or.inl rfl
        · exact Or.inr (Or.inl
            ⟨user, some (auth_service.create_refresh_token user.email now),
             rfl⟩)
  | confirm tok =>
    simp only [apply_op, confirmed_email]
    split
    · exact Or.inl rfl
    · rename_i em heq
      split
      · exact Or.inl rfl
      · split
        · exact Or.inl rfl
        · exact Or.inr (Or.inr (Or.inl ⟨em, tok, rfl, rfl⟩))
  | request e =>
    simp only [apply_op, request_email]
    split
    · exact Or.inl rfl
    · split
      · exact Or.inl rfl
      · exact Or.inl rfl
  | refresh tok =>
    simp only [apply_op, refresh_token]
    split
    · exact Or.inl rfl
    · rename_i em heq
      split
      · exact Or.inl rfl
      · rename_i user heq2
        split
        · exact Or.inr (Or.inl ⟨user, none, rfl⟩)
        · exact Or.inr (Or.inl
            ⟨user, some (auth_service.create_refresh_token em now), rfl⟩)

/-- Claim C9: the `confirmed` flag is monotone.  Over any single surfaced
operation (signup, login, confirm, request confirmation, refresh), an
email whose record is confirmed stays confirmed; and every operation
other than confirm leaves the `confirmed` status of every email exactly as it
was — the only write to the flag is the confirmed=true transition in the
confirm handler. -/
theorem confirmed_flag_monotone (op : Op) (now : Nat) (db : List User)
    (e : String) :
    (confirmedOf db e = true → confirmedOf (apply_op op now db) e = true)
  ∧ ((∀ tok, op ≠ Op.confirm tok) →
       confirmedOf (apply_op op now db) e = confirmedOf db e) := by
  rcases apply_op_state_shape op now db with
    h | ⟨w, tok, h⟩ | ⟨em, tok, hop, h⟩ | ⟨u, hu, h⟩
  · rw [h]
    exact ⟨fun hc => hc, fun _ => rfl⟩
  · rw [h, confirmedOf_update_token]
    exact ⟨fun hc => hc, fun _ => rfl⟩
  · constructor
    · intro hc
      rw [h]
      exact confirmedOf_confirmed_email_mono em db e hc
    · intro hno
      exact absurd hop (hno tok)
  · rw [h, confirmedOf_append_new db u e hu]
    exact ⟨fun hc => hc, fun _ => rfl⟩

/-- Concrete run of C9: a login by the confirmed user neither lowers nor
otherwise changes the `confirmed` status of her email. -/
theorem confirmed_flag_monotone_witness :
    confirmedOf
      (apply_op (Op.login "a@x.com" "pw") 0 [aliceConfirmed]) "a@x.com"
      = true
  ∧ confirmedOf
      (apply_op (Op.login "a@x.com" "pw") 0 [aliceConfirmed]) "a@x.com"
      = confirmedOf [aliceConfirmed] "a@x.com" :=
  ⟨(confirmed_flag_monotone (Op.login "a@x.com" "pw") 0 [aliceConfirmed]
      "a@x.com").1 (by decide),
   (confirmed_flag_monotone (Op.login "a@x.com" "pw") 0 [aliceConfirmed]
      "a@x.com").2 (fun tok h => Op.noConfusion h)⟩
